import Mathlib

/-!
Verification of the longitudinal planner (`selfdrive/controls/lib/planner.py`)
against its natural-language specification.

Modelling conventions:
* Python floats are modelled as real numbers (`ℝ`); the claims under study are
  about exact control flow and order-of-magnitude bounds, not about rounding of
  IEEE-754 arithmetic.
* Values produced by the opaque native MPC solver can be NaN; solver-produced
  trajectory entries are therefore modelled as `Option ℝ`, with `none` playing
  the role of NaN.  The solver itself is opaque: its output is universally
  quantified (an arbitrary `MpcSolution` argument), and its internal state is
  not modelled (calls to `libmpc.init` / `init_with_simulation` have no effect
  on the Python-visible fields that are modelled here).
* Fallible Python code is modelled with `Except String`, the error string
  naming the exception class raised.
-/

/-- `CV.MPH_TO_MS` — modelled from the spec: the conversion constant is imported
from `selfdrive.config`, which is not under `src/`; the spec's glossary fixes
`NO_CURVATURE_SPEED = 200 mph ≈ 89.408 m/s`, i.e. 1 mph = 0.44704 m/s. -/
def MPH_TO_MS : ℝ := 0.44704

/-- `NO_CURVATURE_SPEED = 200. * CV.MPH_TO_MS` (planner.py line 26). -/
def NO_CURVATURE_SPEED : ℝ := 200 * MPH_TO_MS

/-- `A_Y_MAX = 1.85` (planner.py line 25). -/
def A_Y_MAX : ℝ := 1.85

/-- `_LEAD_ACCEL_TAU` — modelled from the spec: the constant is imported from
`selfdrive.controls.lib.radar_helpers`, which is not under `src/`; the spec
(§4.5, no-lead branch) only calls it the default lead acceleration decay time
constant.  Its numeric value does not affect any claim settled in this file. -/
def LEAD_ACCEL_TAU : ℝ := 1.5

/-- Python 2's `round(x, 2)` (round half away from zero to two decimals); every
value it is applied to in the planner is nonnegative, where half-away-from-zero
agrees with half-up: `⌊100·x + 1/2⌋ / 100`. -/
noncomputable def pyRound2 (x : ℝ) : ℝ := (⌊x * 100 + 1 / 2⌋ : ℤ) / 100

theorem pyRound2_mem_of_mem {a b x : ℝ} (ha : a * 100 = (⌊a * 100⌋ : ℤ))
    (hb : b * 100 = (⌊b * 100⌋ : ℤ)) (hax : a ≤ x) (hxb : x ≤ b) :
    a ≤ pyRound2 x ∧ pyRound2 x ≤ b := by
  unfold pyRound2
  have h1 : (⌊a * 100⌋ : ℤ) ≤ ⌊x * 100 + 1 / 2⌋ :=
    Int.le_floor.mpr (by rw [← ha]; linarith)
  have h2 : (⌊x * 100 + 1 / 2⌋ : ℤ) < ⌊b * 100⌋ + 1 :=
    Int.floor_lt.mpr (by push_cast; rw [← hb]; linarith)
  have h1' : (a * 100 : ℝ) ≤ ((⌊x * 100 + 1 / 2⌋ : ℤ) : ℝ) := by
    rw [ha]; exact_mod_cast h1
  have h2' : ((⌊x * 100 + 1 / 2⌋ : ℤ) : ℝ) ≤ b * 100 := by
    rw [hb]; exact_mod_cast Int.lt_add_one_iff.mp h2
  constructor
  · linarith
  · linarith

/-- `FCWChecker.calc_ttc` (planner.py lines 96–117).  `np.minimum` on scalars
is `min`; `np.sqrt` on a nonnegative argument is `Real.sqrt` (the Python `or`
short-circuits, so `np.sqrt` is only evaluated when `delta ≥ 0.1`). -/
noncomputable def calc_ttc (v_ego a_ego x_lead v_lead a_lead : ℝ) : ℝ :=
  let max_ttc : ℝ := 5
  let v_rel := v_ego - v_lead
  let t_decel : ℝ := 2
  let a_rel := min (a_ego - a_lead) (v_lead / t_decel)
  let delta := v_rel ^ 2 + 2 * x_lead * a_rel
  if delta < 0.1 ∨ Real.sqrt delta + v_rel < 0.1 then max_ttc
  else min (2 * x_lead / (Real.sqrt delta + v_rel)) max_ttc

/-- Claim C7: for every input with `x_lead ≥ 0`, `FCWChecker.calc_ttc` returns
a value in `[0, 5]`, and returns exactly `5` whenever the relative velocity
`v_rel = v_ego - v_lead` is `≤ 0` and the limited relative acceleration
`a_rel = min (a_ego - a_lead) (v_lead / 2)` is `≤ 0`. -/
theorem calc_ttc_bounds (v_ego a_ego x_lead v_lead a_lead : ℝ) (hx : 0 ≤ x_lead) :
    calc_ttc v_ego a_ego x_lead v_lead a_lead ∈ Set.Icc (0:ℝ) 5 ∧
      (v_ego - v_lead ≤ 0 → min (a_ego - a_lead) (v_lead / 2) ≤ 0 →
        calc_ttc v_ego a_ego x_lead v_lead a_lead = 5) := by
  constructor
  · unfold calc_ttc
    simp only []
    split
    · exact ⟨by norm_num, by norm_num⟩
    · next h =>
      push_neg at h
      obtain ⟨h1, h2⟩ := h
      have hden : (0:ℝ) < Real.sqrt ((v_ego - v_lead) ^ 2 +
          2 * x_lead * min (a_ego - a_lead) (v_lead / 2)) + (v_ego - v_lead) :=
        lt_of_lt_of_le (by norm_num) h2
      constructor
      · exact le_min (div_nonneg (by linarith) hden.le) (by norm_num)
      · exact min_le_right _ _
  · intro hv ha
    unfold calc_ttc
    simp only []
    rw [if_pos]
    by_cases hd : (v_ego - v_lead) ^ 2 + 2 * x_lead * min (a_ego - a_lead) (v_lead / 2) < 0.1
    · exact Or.inl hd
    · right
      have hdle : (v_ego - v_lead) ^ 2 + 2 * x_lead * min (a_ego - a_lead) (v_lead / 2) ≤
          (v_ego - v_lead) ^ 2 := by nlinarith
      have hs : Real.sqrt ((v_ego - v_lead) ^ 2 +
          2 * x_lead * min (a_ego - a_lead) (v_lead / 2)) ≤ -(v_ego - v_lead) := by
        calc Real.sqrt ((v_ego - v_lead) ^ 2 + 2 * x_lead * min (a_ego - a_lead) (v_lead / 2))
            ≤ Real.sqrt ((v_ego - v_lead) ^ 2) := Real.sqrt_le_sqrt hdle
          _ = |v_ego - v_lead| := Real.sqrt_sq_eq_abs _
          _ = -(v_ego - v_lead) := abs_of_nonpos hv
      linarith

/-- Witness for C7 at a concrete input: `x_lead = 1 ≥ 0`, and with
`v_ego = v_lead = 0`, `a_ego = a_lead = 0` both hypotheses of the "exactly 5"
part hold, so the TTC is 5 (and in `[0,5]`). -/
theorem calc_ttc_bounds_witness :
    (0:ℝ) ≤ 1 ∧ calc_ttc 0 0 1 0 0 ∈ Set.Icc (0:ℝ) 5 ∧ calc_ttc 0 0 1 0 0 = 5 :=
  ⟨by norm_num, (calc_ttc_bounds 0 0 1 0 0 (by norm_num)).1,
    (calc_ttc_bounds 0 0 1 0 0 (by norm_num)).2 (by norm_num) (by norm_num)⟩

/-- The `remapType` tags accepted by `FDistanceNet.remap_range`
(planner.py lines 150–169). -/
inductive RemapType
| dist
| vel
| rel_vel
| rvs_dist
| rvs_vel
| rvs_rel_vel

/-- The `[x0, x1]` / `[y0, y1]` breakpoint pairs chosen by
`FDistanceNet.remap_range` for each tag. -/
structure RemapBounds where
  x0 : ℝ
  x1 : ℝ
  y0 : ℝ
  y1 : ℝ

/-- Breakpoints per tag (planner.py lines 151–168). -/
def remapBounds : RemapType → RemapBounds
  | RemapType.dist => ⟨1.0, 2.7, 0, 1.0⟩
  | RemapType.vel => ⟨0, 53.6448, 0, 1.0⟩
  | RemapType.rel_vel => ⟨-8.9408, 3.12928, 0, 1.0⟩
  | RemapType.rvs_dist => ⟨0, 1.0, 0.67, 2.7⟩
  | RemapType.rvs_vel => ⟨0, 1.0, 0, 53.6448⟩
  | RemapType.rvs_rel_vel => ⟨0, 1.0, -8.9408, 3.12928⟩

/-- `FDistanceNet.remap_range` (planner.py lines 150–172): affine remap from
`[x0,x1]` to `[y0,y1]` followed by the clamp
`min(max(remapped, y[0]), y[1])`. -/
noncomputable def remap_range (value : ℝ) (t : RemapType) : ℝ :=
  let b := remapBounds t
  let remapped := (value - b.x0) / (b.x1 - b.x0) * (b.y1 - b.y0) + b.y0
  min (max remapped b.y0) b.y1

/-- `FDistanceNet.sigmoid` (planner.py lines 174–175). -/
noncomputable def sigmoid (x : ℝ) : ℝ := 1 / (1 + Real.exp (-x))

/-- The frozen weights `FDistanceNet.synaptic_weights` (planner.py line 148). -/
def synaptic_weights : ℝ × ℝ := (3.0327508, -2.07414288)

/-- `FDistanceNet.think` (planner.py lines 180–191): remap the two inputs into
`[0,1]`, take the sigmoid of their dot product with the weights, reverse-remap
into seconds.  The `try/except` around the sigmoid retries the same
computation, so it has no effect in the real-valued model. -/
noncomputable def think (velocity rel_velocity : ℝ) : ℝ :=
  let in0 := remap_range velocity RemapType.vel
  let in1 := remap_range rel_velocity RemapType.rel_vel
  let output := sigmoid (in0 * synaptic_weights.1 + in1 * synaptic_weights.2)
  remap_range output RemapType.rvs_dist

/-- `LongitudinalMpc.generateTR` (planner.py lines 245–247): evaluate the net
at `(velocity, self.rel_vel)` and round to two decimals. -/
noncomputable def generateTR (velocity rel_vel : ℝ) : ℝ :=
  pyRound2 (think velocity rel_vel)

theorem think_mem (velocity rel_velocity : ℝ) :
    (0.67 : ℝ) ≤ think velocity rel_velocity ∧ think velocity rel_velocity ≤ 2.7 := by
  simp only [think, remap_range, remapBounds]
  exact ⟨le_min (le_max_right _ _) (by norm_num), min_le_right _ _⟩

/-- Claim C8: for every ego velocity and every latched relative velocity,
`LongitudinalMpc.generateTR` returns a value in `[0.67, 2.7]`: the inputs are
clamped into `[0,1]` by `remap_range`, the sigmoid output is reverse-remapped
into `[0.67, 2.7]` with clamping, and rounding to two decimals keeps the
interval (in the real-number model finiteness is automatic). -/
theorem generateTR_range (velocity rel_vel : ℝ) :
    generateTR velocity rel_vel ∈ Set.Icc (0.67 : ℝ) 2.7 := by
  have h := think_mem velocity rel_vel
  have hb := pyRound2_mem_of_mem (a := 0.67) (b := 2.7)
    (by norm_num) (by norm_num) h.1 h.2
  exact ⟨hb.1, hb.2⟩

/-- Number of parameters of `LongitudinalMpc.get_relative_velocity`
(planner.py line 242: `def get_relative_velocity(self, l)`). -/
def getRelativeVelocityArity : Nat := 2

/-- Python call semantics for `LongitudinalMpc.get_relative_velocity` invoked
with `nargs` positional arguments of which the first is `selfIsInstance`-or-not
a `LongitudinalMpc` instance.  A call binding both parameters `(self, l)` with
an instance as `self` succeeds (performing `self.rel_vel = l`; such a call
never occurs at the site under study, so the success value keeps the modelled
pair unchanged).  Otherwise the call raises `TypeError`: in Python 2 an
unbound method requires a `LongitudinalMpc` instance as its first argument,
and in Python 3 a single-argument call leaves the parameter `l` missing. -/
def callGetRelativeVelocity (nargs : Nat) (selfIsInstance : Bool)
    (rel : ℝ × ℝ) : Except String (ℝ × ℝ) :=
  if nargs = getRelativeVelocityArity ∧ selfIsInstance = true then Except.ok rel
  else Except.error "TypeError"

/-- Planner.update, lines 502–505:
`try: LongitudinalMpc.get_relative_velocity(self.lead_1.vRel)`
`except: LongitudinalMpc.get_relative_velocity(0.0)`.
Both the try body and the handler invoke the method on the class and pass
exactly one positional argument, a float.  An exception escaping the handler
aborts `Planner.update`.  `rel` is the pair `(mpc1.rel_vel, mpc2.rel_vel)`
before the latch; the `lead1_vRel` argument is `self.lead_1.vRel` (reading it
cannot fail inside the `try`). -/
def relVelLatch (rel : ℝ × ℝ) (lead1_vRel : ℝ) : Except String (ℝ × ℝ) :=
  match callGetRelativeVelocity 1 false rel with
  | Except.ok st => Except.ok st
  | Except.error _ => callGetRelativeVelocity 1 false rel

/-- The part of a `Planner.update` tick that receives a live20 (radar)
message, from the relative-velocity latch on (planner.py lines 502–655).  The
statements of the live20 branch before line 502 (timestamps, lead latching)
cannot raise.  Everything after the latch — the rest of the radar branch, the
event construction and the final `self.plan.send` — is abstracted as an
arbitrary continuation `rest`; the returned Boolean `true` models that the
plan message was sent at the end of the tick. -/
def planner_live20_tick (rel : ℝ × ℝ) (lead1_vRel : ℝ)
    (rest : Except String Unit) : Except String Bool := do
  let _ ← relVelLatch rel lead1_vRel
  let _ ← rest
  pure true

/-- Claim C2 (code bug): the latch of lines 502–505 never assigns
`mpc1.rel_vel` / `mpc2.rel_vel`; for every prior value of the two fields and
every `lead_1.vRel` it raises `TypeError` (from the `except:` arm, uncaught),
instead of latching `lead_1.v_rel` (or `0` when missing) as claimed. -/
theorem relVelLatch_raises (rel : ℝ × ℝ) (lead1_vRel : ℝ) :
    relVelLatch rel lead1_vRel = Except.error "TypeError" := by
  rfl

/-- Claim C1 (code bug): on every tick that receives a live20 message, no
matter what the rest of the tick would do, `Planner.update` propagates a
`TypeError` raised at line 505 and never reaches the plan send: the result is
an exception, not a sent plan. -/
theorem planner_live20_tick_raises (rel : ℝ × ℝ) (lead1_vRel : ℝ)
    (rest : Except String Unit) :
    planner_live20_tick rel lead1_vRel rest = Except.error "TypeError" := by
  rfl

/-- The planner fields read and written by `Planner.choose_solution`
(planner.py lines 413–442), together with the fields of the two MPC wrappers
it consults.  Solver outputs are taken as plain reals here: `v_mpc` is
NaN-free after every `LongitudinalMpc.update` (a NaN in the trajectory
triggers the divergence reset, which overwrites `v_mpc` with `CS.vEgo`). -/
structure ArbState where
  v_cruise : ℝ
  a_cruise : ℝ
  v_acc : ℝ
  a_acc : ℝ
  v_acc_future : ℝ
  longitudinalPlanSource : String
  mpc1_prev_lead_status : Bool
  mpc1_v_mpc : ℝ
  mpc1_a_mpc : ℝ
  mpc1_v_mpc_future : ℝ
  mpc2_prev_lead_status : Bool
  mpc2_v_mpc : ℝ
  mpc2_a_mpc : ℝ
  mpc2_v_mpc_future : ℝ

/-- `min(solutions, key=solutions.get)`: fold over the candidate association
list keeping the first entry with the strictly smallest value (Python's `min`
keeps the earliest minimum; the iteration order of the small dict is
implementation-defined, but every property proved below is independent of the
order because ties carry equal velocities). -/
noncomputable def pickSlowest : String × ℝ → List (String × ℝ) → String × ℝ
  | best, [] => best
  | best, c :: rest => pickSlowest (if c.2 < best.2 then c else best) rest

/-- The `solutions` dict built by `choose_solution` when enabled:
`'cruise'` always, `'mpc1'`/`'mpc2'` iff the corresponding
`prev_lead_status`. -/
def candidates (s : ArbState) : List (String × ℝ) :=
  ("cruise", s.v_cruise) ::
    ((if s.mpc1_prev_lead_status then [("mpc1", s.mpc1_v_mpc)] else []) ++
      (if s.mpc2_prev_lead_status then [("mpc2", s.mpc2_v_mpc)] else []))

/-- `Planner.choose_solution` (planner.py lines 413–442).  When `enabled`,
pick the slowest candidate, record it in `longitudinalPlanSource` and copy its
`v`/`a` into `v_acc`/`a_acc`; in every case recompute
`v_acc_future = min([mpc1.v_mpc_future, mpc2.v_mpc_future,
v_cruise_setpoint])`. -/
noncomputable def choose_solution (s : ArbState) (v_cruise_setpoint : ℝ) (enabled : Bool) :
    ArbState :=
  let s1 :=
    if enabled then
      let slowest := (pickSlowest ("cruise", s.v_cruise) (candidates s).tail).1
      let s' := { s with longitudinalPlanSource := slowest }
      if slowest = "mpc1" then
        { s' with v_acc := s.mpc1_v_mpc, a_acc := s.mpc1_a_mpc }
      else if slowest = "mpc2" then
        { s' with v_acc := s.mpc2_v_mpc, a_acc := s.mpc2_a_mpc }
      else if slowest = "cruise" then
        { s' with v_acc := s.v_cruise, a_acc := s.a_cruise }
      else s'
    else s
  { s1 with
    v_acc_future :=
      min (min s1.mpc1_v_mpc_future s1.mpc2_v_mpc_future) v_cruise_setpoint }

/-- The velocity of the candidate named `k` in state `s` (`cruise` for any
name other than `mpc1`/`mpc2`). -/
def sourceVelocity (s : ArbState) (k : String) : ℝ :=
  if k = "mpc1" then s.mpc1_v_mpc
  else if k = "mpc2" then s.mpc2_v_mpc
  else s.v_cruise

theorem pickSlowest_mem (best : String × ℝ) (l : List (String × ℝ)) :
    pickSlowest best l = best ∨ pickSlowest best l ∈ l := by
  induction l generalizing best with
  | nil => exact Or.inl rfl
  | cons c rest ih =>
    rw [pickSlowest]
    by_cases hc : c.2 < best.2
    · rw [if_pos hc]
      rcases ih c with h | h
      · rw [h]; exact Or.inr (List.mem_cons_self c rest)
      · exact Or.inr (List.mem_cons_of_mem c h)
    · rw [if_neg hc]
      rcases ih best with h | h
      · exact Or.inl h
      · exact Or.inr (List.mem_cons_of_mem c h)

theorem pickSlowest_le_best (best : String × ℝ) (l : List (String × ℝ)) :
    (pickSlowest best l).2 ≤ best.2 := by
  induction l generalizing best with
  | nil => exact le_refl _
  | cons c rest ih =>
    rw [pickSlowest]
    refine le_trans (ih _) ?_
    by_cases hc : c.2 < best.2
    · rw [if_pos hc]; exact hc.le
    · rw [if_neg hc]

theorem pickSlowest_le_mem (best : String × ℝ) (l : List (String × ℝ))
    (c : String × ℝ) (hc : c ∈ l) : (pickSlowest best l).2 ≤ c.2 := by
  induction l generalizing best with
  | nil => cases hc
  | cons d rest ih =>
    rw [pickSlowest]
    rcases List.mem_cons.mp hc with h | h
    · subst h
      refine le_trans (pickSlowest_le_best _ _) ?_
      by_cases hd : c.2 < best.2
      · rw [if_pos hd]
      · rw [if_neg hd]; exact not_lt.mp hd
    · exact ih _ h

/-- Claim C3, amended: whenever `choose_solution` runs with `enabled = true`,
the arbitrated `v_acc` equals the minimum over the available candidates
(cruise always; `mpc1`/`mpc2` iff their `prev_lead_status`), is one of the
three candidate velocities, and `longitudinalPlanSource` names an available
candidate whose velocity equals `v_acc`.  (The unamended claim also asserted
this for ticks with `enabled = false`, where `choose_solution` leaves `v_acc`
and `longitudinalPlanSource` untouched.) -/
theorem choose_solution_enabled_min (s : ArbState) (v_cruise_setpoint : ℝ) :
    (choose_solution s v_cruise_setpoint true).v_acc =
        min s.v_cruise
          (min (if s.mpc1_prev_lead_status then s.mpc1_v_mpc else s.v_cruise)
            (if s.mpc2_prev_lead_status then s.mpc2_v_mpc else s.v_cruise)) ∧
      ((choose_solution s v_cruise_setpoint true).v_acc = s.v_cruise ∨
        (choose_solution s v_cruise_setpoint true).v_acc = s.mpc1_v_mpc ∨
        (choose_solution s v_cruise_setpoint true).v_acc = s.mpc2_v_mpc) ∧
      sourceVelocity s
          (choose_solution s v_cruise_setpoint true).longitudinalPlanSource =
        (choose_solution s v_cruise_setpoint true).v_acc ∧
      ((choose_solution s v_cruise_setpoint true).longitudinalPlanSource =
          "cruise" ∨
        ((choose_solution s v_cruise_setpoint true).longitudinalPlanSource =
            "mpc1" ∧ s.mpc1_prev_lead_status = true) ∨
        ((choose_solution s v_cruise_setpoint true).longitudinalPlanSource =
            "mpc2" ∧ s.mpc2_prev_lead_status = true)) := by
  have hmem0 := pickSlowest_mem ("cruise", s.v_cruise) (candidates s).tail
  have hle_c := pickSlowest_le_best ("cruise", s.v_cruise) (candidates s).tail
  have hle1 : s.mpc1_prev_lead_status = true →
      (pickSlowest ("cruise", s.v_cruise) (candidates s).tail).2 ≤
        s.mpc1_v_mpc := fun h1 =>
    pickSlowest_le_mem _ _ ("mpc1", s.mpc1_v_mpc) (by simp [candidates, h1])
  have hle2 : s.mpc2_prev_lead_status = true →
      (pickSlowest ("cruise", s.v_cruise) (candidates s).tail).2 ≤
        s.mpc2_v_mpc := fun h2 =>
    pickSlowest_le_mem _ _ ("mpc2", s.mpc2_v_mpc)
      (by rcases hb : s.mpc1_prev_lead_status <;> simp [candidates, h2, hb])
  simp only [choose_solution]
  generalize hq : pickSlowest ("cruise", s.v_cruise) (candidates s).tail = q
  rw [hq] at hmem0 hle_c hle1 hle2
  have hcases : q = ("cruise", s.v_cruise) ∨
      (s.mpc1_prev_lead_status = true ∧ q = ("mpc1", s.mpc1_v_mpc)) ∨
      (s.mpc2_prev_lead_status = true ∧ q = ("mpc2", s.mpc2_v_mpc)) := by
    rcases hmem0 with h | h
    · exact Or.inl h
    · rcases h1 : s.mpc1_prev_lead_status <;> rcases h2 : s.mpc2_prev_lead_status <;>
        rw [candidates] at h <;> simp [h1, h2] at h <;> tauto
  have hqmin : q.2 =
      min s.v_cruise
        (min (if s.mpc1_prev_lead_status then s.mpc1_v_mpc else s.v_cruise)
          (if s.mpc2_prev_lead_status then s.mpc2_v_mpc else s.v_cruise)) := by
    refine le_antisymm (le_min hle_c (le_min ?_ ?_)) ?_
    · rcases h1 : s.mpc1_prev_lead_status
      · rw [if_neg (by simp [h1])]; exact hle_c
      · rw [if_pos (by simp [h1])]; exact hle1 h1
    · rcases h2 : s.mpc2_prev_lead_status
      · rw [if_neg (by simp [h2])]; exact hle_c
      · rw [if_pos (by simp [h2])]; exact hle2 h2
    · rcases hcases with h | ⟨h1, h⟩ | ⟨h2, h⟩
      · rw [h]; exact min_le_left _ _
      · rw [h, h1]
        simp only [if_pos rfl]
        exact le_trans (min_le_right _ _) (min_le_left _ _)
      · rw [h, h2]
        simp only [if_pos rfl]
        exact le_trans (min_le_right _ _) (min_le_right _ _)
  rcases hcases with h | ⟨h1, h⟩ | ⟨h2, h⟩ <;> subst h <;>
    simp only [] at hqmin <;>
    simp [sourceVelocity, hqmin.symm] <;>
    assumption

/-- A planner state reachable at a disabled radar tick: the previous (enabled)
tick arbitrated to `mpc1` (`longitudinalPlanSource = "mpc1"`); the disabled
reset then assigned `v_acc := v_cruise := CS.vEgo = 5` while `mpc1` still
tracks a lead with `v_mpc = 3`. -/
noncomputable def exC3 : ArbState :=
  { v_cruise := 5
    a_cruise := 0
    v_acc := 5
    a_acc := 0
    v_acc_future := 0
    longitudinalPlanSource := "mpc1"
    mpc1_prev_lead_status := true
    mpc1_v_mpc := 3
    mpc1_a_mpc := 0
    mpc1_v_mpc_future := 10
    mpc2_prev_lead_status := false
    mpc2_v_mpc := 0
    mpc2_a_mpc := 0
    mpc2_v_mpc_future := 10 }

/-- Counterexample to claim C3 as stated: on a tick with `enabled = false`,
after `choose_solution` the value `v_acc = 5` differs from the minimum of the
available candidates (`min(cruise 5, mpc1 3) = 3`), and
`longitudinalPlanSource` (the stale `"mpc1"`) names a candidate whose velocity
`3` differs from `v_acc = 5`. -/
theorem choose_solution_claim_counterexample :
    (choose_solution exC3 10 false).v_acc ≠
        min exC3.v_cruise
          (min
            (if exC3.mpc1_prev_lead_status then exC3.mpc1_v_mpc
              else exC3.v_cruise)
            (if exC3.mpc2_prev_lead_status then exC3.mpc2_v_mpc
              else exC3.v_cruise)) ∧
      sourceVelocity exC3
          (choose_solution exC3 10 false).longitudinalPlanSource ≠
        (choose_solution exC3 10 false).v_acc := by
  constructor <;> norm_num [choose_solution, exC3, sourceVelocity]

/-- Claim C10: a call of `Planner.choose_solution` with `enabled = false`
leaves `v_acc`, `a_acc` and `longitudinalPlanSource` (and every other planner
field) unchanged, and only recomputes
`v_acc_future = min(mpc1.v_mpc_future, mpc2.v_mpc_future,
v_cruise_setpoint)`. -/
theorem choose_solution_disabled_frame (s : ArbState) (v_cruise_setpoint : ℝ) :
    choose_solution s v_cruise_setpoint false =
      { s with
        v_acc_future :=
          min (min s.mpc1_v_mpc_future s.mpc2_v_mpc_future)
            v_cruise_setpoint } := by
  simp [choose_solution]

/-- The fields of a `liveMapData` snapshot read by the radar-tick map block
(planner.py lines 510–528). -/
structure MapData where
  mapValid : Bool
  speedLimitValid : Bool
  speedLimit : ℝ
  curvatureValid : Bool
  curvature : ℝ

/-- The two key-value configuration entries the map block reads.  The claim
does not concern malformed offsets, so `SpeedLimitOffset` carries the parsed
float directly (`none` models a missing key). -/
structure PlannerParams where
  limitSetSpeed : Option String
  speedLimitOffset : Option ℝ

/-- `set_speed_limit_active` (planner.py line 518):
`params.get("LimitSetSpeed") == "1" and params.get("SpeedLimitOffset") is not
None`. -/
def set_speed_limit_active (p : PlannerParams) : Bool :=
  (p.limitSetSpeed == some "1") && p.speedLimitOffset.isSome

/-- The planner fields written by the map block. -/
structure PlannerMapState where
  v_speedlimit : ℝ
  v_curvature : ℝ
  map_valid : Bool

/-- The map block of the radar tick (planner.py lines 510–528): executed when
`self.last_live_map_data` is set (any received snapshot is truthy — note the
code never tests `mapValid` beyond latching it).  The speed limit is applied
under `speedLimitValid` and `set_speed_limit_active`; the curvature bound is
computed in a block nested inside the speed-limit branch, and only under
`curvatureValid`. -/
noncomputable def planner_map_update (s : PlannerMapState)
    (lastLiveMapData : Option MapData) (p : PlannerParams) : PlannerMapState :=
  match lastLiveMapData with
  | none => s
  | some m =>
    let s1 : PlannerMapState :=
      { v_speedlimit := NO_CURVATURE_SPEED
        v_curvature := NO_CURVATURE_SPEED
        map_valid := m.mapValid }
    if m.speedLimitValid then
      if set_speed_limit_active p then
        let offset := p.speedLimitOffset.getD 0
        let s2 := { s1 with v_speedlimit := m.speedLimit + offset }
        if m.curvatureValid then
          { s2 with
            v_curvature :=
              min NO_CURVATURE_SPEED
                (Real.sqrt (A_Y_MAX / max (1 / 10000) |m.curvature|)) }
        else s2
      else s1
    else s1

/-- Claim C5, amended: on every radar tick with map data present, the code
latches `map_valid` but never gates on it; `v_speedlimit` is
`speed_limit + offset` iff the speed limit is valid and the "LimitSetSpeed"
configuration is active (else `NO_CURVATURE_SPEED`), and `v_curvature` is
`min(NO_CURVATURE_SPEED, sqrt(1.85 / max(1e-4, |curvature|)))` iff
additionally — inside the speed-limit branch — the curvature is valid (else
`NO_CURVATURE_SPEED`): the curvature bound does depend on the speed-limit
validity and the configuration flags. -/
theorem planner_map_update_characterization (s : PlannerMapState) (m : MapData)
    (p : PlannerParams) :
    (planner_map_update s (some m) p).map_valid = m.mapValid ∧
      (planner_map_update s (some m) p).v_speedlimit =
        (if m.speedLimitValid && set_speed_limit_active p then
          m.speedLimit + p.speedLimitOffset.getD 0
        else NO_CURVATURE_SPEED) ∧
      (planner_map_update s (some m) p).v_curvature =
        (if m.speedLimitValid && set_speed_limit_active p && m.curvatureValid
            then
          min NO_CURVATURE_SPEED
            (Real.sqrt (A_Y_MAX / max (1 / 10000) |m.curvature|))
        else NO_CURVATURE_SPEED) := by
  rcases h1 : m.speedLimitValid <;> rcases h2 : set_speed_limit_active p <;>
    rcases h3 : m.curvatureValid <;>
    simp [planner_map_update, h1, h2, h3]

/-- A map snapshot with a valid map and valid curvature but an invalid speed
limit. -/
noncomputable def exC5map : MapData :=
  { mapValid := true
    speedLimitValid := false
    speedLimit := 10
    curvatureValid := true
    curvature := 1.85 }

/-- Configuration with "LimitSetSpeed" enabled and an offset present. -/
noncomputable def exC5params : PlannerParams :=
  { limitSetSpeed := some "1", speedLimitOffset := some 0 }

/-- Planner map fields before the tick. -/
noncomputable def exC5state : PlannerMapState :=
  { v_speedlimit := NO_CURVATURE_SPEED
    v_curvature := NO_CURVATURE_SPEED
    map_valid := false }

/-- Counterexample to claim C5 as stated: the map is valid and the curvature
is valid (`|curvature| = 1.85`, so the claimed bound is
`min(NO_CURVATURE_SPEED, sqrt(1.85/1.85)) = 1`), yet because the speed limit
is invalid the code leaves `v_curvature = NO_CURVATURE_SPEED ≠ 1` — the
curvature bound does depend on the speed-limit validity. -/
theorem planner_map_update_counterexample :
    (planner_map_update exC5state (some exC5map) exC5params).v_curvature =
        NO_CURVATURE_SPEED ∧
      min NO_CURVATURE_SPEED
          (Real.sqrt (A_Y_MAX / max (1 / 10000) |exC5map.curvature|)) = 1 ∧
      NO_CURVATURE_SPEED ≠ 1 := by
  refine ⟨?_, ?_, ?_⟩
  · simp [planner_map_update, exC5state, exC5map, exC5params]
  · have h : A_Y_MAX / max (1 / 10000 : ℝ) |(exC5map.curvature : ℝ)| = 1 := by
      rw [show |(exC5map.curvature : ℝ)| = 1.85 by
        simp [exC5map]; norm_num [abs_of_nonneg]]
      norm_num [A_Y_MAX]
    rw [h, Real.sqrt_one]
    norm_num [NO_CURVATURE_SPEED, MPH_TO_MS]
  · norm_num [NO_CURVATURE_SPEED, MPH_TO_MS]

/-- The ego-state fields `LongitudinalMpc.update` reads from `CS`. -/
structure CarState where
  vEgo : ℝ
  aEgo : ℝ
  readdistancelines : ℤ

/-- A radar lead track as read by `LongitudinalMpc.update`. -/
structure Lead where
  status : Bool
  dRel : ℝ
  vLead : ℝ
  aLeadK : ℝ
  aLeadTau : ℝ

/-- The solver solution buffer `log_t`: trajectories of 21 nodes whose entries
are native floats; `none` models NaN. -/
structure MpcSolution where
  x_ego : Fin 21 → Option ℝ
  v_ego : Fin 21 → Option ℝ
  a_ego : Fin 21 → Option ℝ
  x_l : Fin 21 → Option ℝ
  v_l : Fin 21 → Option ℝ

/-- `np.any(np.isnan(list(v_ego)))` (planner.py line 333). -/
def nansIn (v : Fin 21 → Option ℝ) : Bool :=
  (List.finRange 21).any fun i => (v i).isNone

/-- Python `<` on possibly-NaN floats: any comparison with NaN is false. -/
noncomputable def pfLt (a b : Option ℝ) : Bool :=
  match a, b with
  | some x, some y => decide (x < y)
  | _, _ => false

/-- Pointwise float subtraction; NaN propagates. -/
def pfSub (a b : Option ℝ) : Option ℝ :=
  match a, b with
  | some x, some y => some (x - y)
  | _, _ => none

/-- Python's `min` over a list, folded with `<` from the first element (an
element compares smaller only through a true `<`, so NaN keeps the current
minimum). -/
noncomputable def pfMinFold (cur : Option ℝ) : List (Option ℝ) → Option ℝ
  | [] => cur
  | x :: xs => pfMinFold (if pfLt x cur then x else cur) xs

/-- `min` over a 21-node trajectory. -/
noncomputable def trajMin (f : Fin 21 → Option ℝ) : Option ℝ :=
  pfMinFold (f 0) (((List.finRange 21).map f).tail)

/-- The per-instance state of `LongitudinalMpc` that planner.py reads or
writes (solver-internal state behind `libmpc` is opaque), together with the
seeded `cur_state` fields. -/
structure MpcState where
  v_mpc : Option ℝ
  a_mpc : Option ℝ
  v_mpc_future : Option ℝ
  prev_lead_status : Bool
  prev_lead_x : ℝ
  new_lead : Bool
  lastTR : ℤ
  last_cloudlog_t : ℝ
  last_cost : ℝ
  rel_vel : ℝ
  a_lead_tau : ℝ
  cur_x_ego : ℝ
  cur_v_ego : ℝ
  cur_a_ego : ℝ
  cur_x_l : ℝ
  cur_v_l : ℝ

/-- `LongitudinalMpc.generate_cost` (planner.py lines 249–255):
`np.interp(distance, [.9, 1.8, 2.7], [1.0, .1, .05])` (clamped outside the
breakpoints) rounded to two decimals. -/
noncomputable def generate_cost (distance : ℝ) : ℝ :=
  pyRound2
    (if distance ≤ 0.9 then 1.0
    else if distance ≤ 1.8 then 1.0 + (distance - 0.9) * ((0.1 - 1.0) / (1.8 - 0.9))
    else if distance ≤ 2.7 then 0.1 + (distance - 1.8) * ((0.05 - 0.1) / (2.7 - 1.8))
    else 0.05)

/-- The no-lead branch of `LongitudinalMpc.update` (planner.py lines 281–287):
fake a fast lead 50 m ahead, clear `prev_lead_status` (`new_lead` is *not*
touched). -/
def LongitudinalMpc.noLeadStage (s : MpcState) (CS : CarState) : MpcState :=
  { s with
    prev_lead_status := false
    cur_x_l := 50
    cur_v_l := CS.vEgo + 10
    a_lead_tau := LEAD_ACCEL_TAU }

/-- The lead branch of `LongitudinalMpc.update` (planner.py lines 261–287):
clamp the lead kinematics, apply the stationary heuristic, update
`a_lead_tau`, re-seed the solver (opaque) and pulse `new_lead` when there was
no prior lead or the lead jumped by more than 2.5 m, then latch
`prev_lead_status`/`prev_lead_x` and push the lead into `cur_state`.  The
local `a_lead` is only passed to the opaque solver. -/
noncomputable def LongitudinalMpc.leadStage (s : MpcState) (CS : CarState)
    (lead : Option Lead) : MpcState :=
  match lead with
  | some l =>
    if l.status then
      let x_lead := max 0 (l.dRel - 1)
      let v_lead0 := max 0 l.vLead
      let stationary := v_lead0 < 0.1 ∨ -l.aLeadK / 2 > v_lead0
      let v_lead := if stationary then 0 else v_lead0
      let a_lead := if stationary then 0 else l.aLeadK
      { s with
        a_lead_tau :=
          max l.aLeadTau (a_lead ^ 2 * Real.pi / (2 * (v_lead + 0.01) ^ 2))
        new_lead :=
          if s.prev_lead_status = false ∨ |x_lead - s.prev_lead_x| > 2.5 then
            true
          else false
        prev_lead_status := true
        prev_lead_x := x_lead
        cur_x_l := x_lead
        cur_v_l := v_lead }
    else LongitudinalMpc.noLeadStage s CS
  | none => LongitudinalMpc.noLeadStage s CS

/-- The `TR`/cost selection of `LongitudinalMpc.update` (planner.py lines
290–319).  Only the Python-visible state effects are modelled (`lastTR`,
`last_cost`); the chosen `TR` and the cost re-inits go to the opaque
solver. -/
noncomputable def LongitudinalMpc.costStage (s : MpcState) (CS : CarState) :
    MpcState :=
  if CS.vEgo < 2 then s
  else if CS.readdistancelines = 1 then
    (if (1 : ℤ) = s.lastTR then s else { s with lastTR := 1 })
  else if CS.readdistancelines = 2 then
    (let generatedTR := generateTR CS.vEgo s.rel_vel
    if |generate_cost generatedTR - s.last_cost| > 0.2 then
      { s with last_cost := generate_cost generatedTR }
    else s)
  else if CS.readdistancelines = 3 then
    (if (3 : ℤ) = s.lastTR then s else { s with lastTR := 3 })
  else s

/-- Solution extraction (planner.py lines 326–328). -/
def LongitudinalMpc.extractStage (s : MpcState) (sol : MpcSolution) : MpcState :=
  { s with
    v_mpc := sol.v_ego 1
    a_mpc := sol.a_ego 1
    v_mpc_future := sol.v_ego 10 }

/-- The divergence-recovery block (planner.py lines 330–348): on NaN, or on a
backwards/crashing trajectory while a lead is tracked, emit a rate-limited
warning, re-init the opaque solver, and reset the seeded state and published
outputs. -/
noncomputable def LongitudinalMpc.resetStage (s : MpcState) (CS : CarState)
    (sol : MpcSolution) (t : ℝ) : MpcState :=
  let dls := fun i => pfSub (sol.x_l i) (sol.x_ego i)
  let crashing := pfLt (trajMin dls) (some (-50))
  let nans := nansIn sol.v_ego
  let backwards := pfLt (trajMin sol.v_ego) (some (-0.01))
  if ((backwards || crashing) && s.prev_lead_status) || nans then
    let s1 := if t > s.last_cloudlog_t + 5 then { s with last_cloudlog_t := t } else s
    { s1 with
      cur_v_ego := CS.vEgo
      cur_a_ego := 0
      v_mpc := some CS.vEgo
      a_mpc := some CS.aEgo
      prev_lead_status := false }
  else s

/-- `LongitudinalMpc.update` (planner.py lines 257–348).  Since the native
solver is opaque, the buffer it fills in `run_mpc` is taken as the argument
`sol` (universally quantified at every use); `send_mpc_solution` only
publishes and has no state effect; `t` is `sec_since_boot()` at the solver
call; the `v_cruise_setpoint` parameter is, as in the source, unused. -/
noncomputable def LongitudinalMpc.update (s : MpcState) (CS : CarState)
    (lead : Option Lead) (sol : MpcSolution) (v_cruise_setpoint t : ℝ) :
    MpcState :=
  let s0 := { s with cur_x_ego := 0 }
  let s1 := LongitudinalMpc.leadStage s0 CS lead
  let s2 := LongitudinalMpc.costStage s1 CS
  let s3 := LongitudinalMpc.extractStage s2 sol
  LongitudinalMpc.resetStage s3 CS sol t

theorem costStage_new_lead (s : MpcState) (CS : CarState) :
    (LongitudinalMpc.costStage s CS).new_lead = s.new_lead := by
  simp only [LongitudinalMpc.costStage]
  split_ifs <;> rfl

theorem resetStage_new_lead (s : MpcState) (CS : CarState) (sol : MpcSolution)
    (t : ℝ) : (LongitudinalMpc.resetStage s CS sol t).new_lead = s.new_lead := by
  simp only [LongitudinalMpc.resetStage]
  split_ifs <;> rfl

theorem update_new_lead_eq (s : MpcState) (CS : CarState) (lead : Option Lead)
    (sol : MpcSolution) (v_cruise_setpoint t : ℝ) :
    (LongitudinalMpc.update s CS lead sol v_cruise_setpoint t).new_lead =
      (LongitudinalMpc.leadStage { s with cur_x_ego := 0 } CS lead).new_lead := by
  simp only [LongitudinalMpc.update, resetStage_new_lead,
    LongitudinalMpc.extractStage, costStage_new_lead]

/-- Claim C4: if the solver returns any NaN in the `v_ego` trajectory, then
after `LongitudinalMpc.update` the seeded state is `cur_state.v_ego = CS.vEgo`
and `cur_state.a_ego = 0`, the published outputs are `v_mpc = CS.vEgo` and
`a_mpc = CS.aEgo`, and `prev_lead_status` is cleared. -/
theorem mpc_update_nan_reset (s : MpcState) (CS : CarState) (lead : Option Lead)
    (sol : MpcSolution) (v_cruise_setpoint t : ℝ)
    (h : nansIn sol.v_ego = true) :
    (LongitudinalMpc.update s CS lead sol v_cruise_setpoint t).cur_v_ego =
        CS.vEgo ∧
      (LongitudinalMpc.update s CS lead sol v_cruise_setpoint t).cur_a_ego = 0 ∧
      (LongitudinalMpc.update s CS lead sol v_cruise_setpoint t).v_mpc =
        some CS.vEgo ∧
      (LongitudinalMpc.update s CS lead sol v_cruise_setpoint t).a_mpc =
        some CS.aEgo ∧
      (LongitudinalMpc.update s CS lead sol v_cruise_setpoint t).prev_lead_status =
        false := by
  simp only [LongitudinalMpc.update, LongitudinalMpc.resetStage, h,
    Bool.or_true, if_true]
  exact ⟨trivial, trivial, trivial, trivial, trivial⟩

/-- A solver solution whose entire `v_ego` trajectory is NaN. -/
noncomputable def exC4sol : MpcSolution :=
  { x_ego := fun _ => some 0
    v_ego := fun _ => none
    a_ego := fun _ => some 0
    x_l := fun _ => some 50
    v_l := fun _ => some 10 }

/-- Ego state for the C4 witness. -/
noncomputable def exC4cs : CarState :=
  { vEgo := 7, aEgo := -1, readdistancelines := 2 }

/-- An MPC wrapper state as created at planner start
(planner.py lines 199–236). -/
noncomputable def mpcInitState : MpcState :=
  { v_mpc := some 0
    a_mpc := some 0
    v_mpc_future := some 0
    prev_lead_status := false
    prev_lead_x := 0
    new_lead := false
    lastTR := 0
    last_cloudlog_t := 0
    last_cost := 0
    rel_vel := 0
    a_lead_tau := LEAD_ACCEL_TAU
    cur_x_ego := 0
    cur_v_ego := 0
    cur_a_ego := 0
    cur_x_l := 0
    cur_v_l := 0 }

/-- Witness for C4 at a concrete input: an all-NaN `v_ego` trajectory
satisfies the hypothesis, and the reset seeds the state from the ego. -/
theorem mpc_update_nan_reset_witness :
    nansIn exC4sol.v_ego = true ∧
      ((LongitudinalMpc.update mpcInitState exC4cs none exC4sol 10 0).cur_v_ego =
          exC4cs.vEgo ∧
        (LongitudinalMpc.update mpcInitState exC4cs none exC4sol 10 0).cur_a_ego =
          0 ∧
        (LongitudinalMpc.update mpcInitState exC4cs none exC4sol 10 0).v_mpc =
          some exC4cs.vEgo ∧
        (LongitudinalMpc.update mpcInitState exC4cs none exC4sol 10 0).a_mpc =
          some exC4cs.aEgo ∧
        (LongitudinalMpc.update mpcInitState exC4cs none exC4sol 10
              0).prev_lead_status =
          false) :=
  ⟨by rfl, mpc_update_nan_reset mpcInitState exC4cs none exC4sol 10 0 (by rfl)⟩

/-- Claim C6, amended: `new_lead` is written only on calls where a lead with
`status` is present — there it pulses exactly when there was no prior lead or
the lead position `x_lead = max(0, d_rel - 1)` jumped from `prev_lead_x` by
more than 2.5 m — while on calls without a present lead (`lead = None`, and
likewise `status = false`) `new_lead` keeps its previous value instead of
being false as the unamended claim states. -/
theorem mpc_update_new_lead (s : MpcState) (CS : CarState) (l : Lead)
    (sol : MpcSolution) (v_cruise_setpoint t : ℝ) :
    ((LongitudinalMpc.update s CS (some l) sol v_cruise_setpoint t).new_lead =
        (if l.status then
          (if s.prev_lead_status = false ∨
              |max 0 (l.dRel - 1) - s.prev_lead_x| > 2.5 then
            true
          else false)
        else s.new_lead)) ∧
      (LongitudinalMpc.update s CS none sol v_cruise_setpoint t).new_lead =
        s.new_lead := by
  constructor
  · rw [update_new_lead_eq]
    simp only [LongitudinalMpc.leadStage]
    rcases hst : l.status
    · simp [LongitudinalMpc.noLeadStage]
    · simp
  · rw [update_new_lead_eq]
    simp [LongitudinalMpc.leadStage, LongitudinalMpc.noLeadStage]

/-- A lead track for the C6 counterexample. -/
noncomputable def exC6lead : Lead :=
  { status := true, dRel := 10, vLead := 10, aLeadK := 0, aLeadTau := 1 }

/-- A NaN-free solver solution for the C6 counterexample. -/
noncomputable def exC6sol : MpcSolution :=
  { x_ego := fun _ => some 0
    v_ego := fun _ => some 5
    a_ego := fun _ => some 0
    x_l := fun _ => some 40
    v_l := fun _ => some 5 }

/-- Ego state for the C6 counterexample. -/
noncomputable def exC6cs : CarState :=
  { vEgo := 10, aEgo := 0, readdistancelines := 0 }

/-- Counterexample to claim C6 as stated: a first `update` call sees a fresh
lead and pulses `new_lead`; the next call has no lead at all, yet `new_lead`
is still true — the claim demands `new_lead = false` on every call in which no
present lead caused a re-seed, in particular on calls with no lead present. -/
theorem mpc_update_new_lead_counterexample :
    (LongitudinalMpc.update
        (LongitudinalMpc.update mpcInitState exC6cs (some exC6lead) exC6sol 10 0)
        exC6cs none exC6sol 10 0.1).new_lead = true := by
  rw [update_new_lead_eq]
  simp only [LongitudinalMpc.leadStage, LongitudinalMpc.noLeadStage]
  rw [update_new_lead_eq]
  simp only [LongitudinalMpc.leadStage, exC6lead]
  norm_num [mpcInitState]

/-- The eight named counters of `FCWChecker` (the `defaultdict` keys used by
`FCWChecker.update`, planner.py lines 126–133); all start at 0. -/
structure FcwCounters where
  v_ego : ℝ
  ttc : ℝ
  v_lead_max : ℝ
  v_ego_lead : ℝ
  lead_seen : ℝ
  y_lead : ℝ
  vlat_lead : ℝ
  blinkers : ℝ

/-- The running state of `FCWChecker` (planner.py lines 87–94). -/
structure FcwState where
  last_fcw_a : ℝ
  v_lead_max : ℝ
  lead_seen_t : ℝ
  last_fcw_time : ℝ
  last_min_a : ℝ
  counters : FcwCounters

/-- The per-call inputs of `FCWChecker.update`; `a_ego_sol` is
`list(mpc_solution[0].a_ego)` (the claim concerns the rate limiting, for which
the trajectory is an arbitrary NaN-free list). -/
structure FcwInput where
  a_ego_sol : List ℝ
  cur_time : ℝ
  v_ego : ℝ
  a_ego : ℝ
  x_lead : ℝ
  v_lead : ℝ
  a_lead : ℝ
  y_lead : ℝ
  vlat_lead : ℝ
  fcw_lead : ℝ
  blinkers : Bool

/-- Python's `min` over a nonempty list of floats (folded from the head; the
planner only applies it to the 21-node trajectory, so the `[]` case is
junk). -/
noncomputable def listMinR : List ℝ → ℝ
  | [] => 0
  | x :: xs => xs.foldl min x

/-- `interp(v_lead, _FCW_A_ACT_BP, _FCW_A_ACT_V)` with breakpoints `[0, 30]`
and values `[-3, -2]` (clamped linear interpolation, planner.py lines 51–52
and 135). -/
noncomputable def fcw_a_thr (v_lead : ℝ) : ℝ :=
  if v_lead ≤ 0 then -3
  else if 30 ≤ v_lead then -2
  else -3 + v_lead * ((-2 - -3) / (30 - 0))

/-- The counter refresh performed by `FCWChecker.update` when
`fcw_lead > 0.99` (planner.py lines 126–133): each counter increments when its
predicate holds this call and resets to 0 otherwise; `lead_seen` accumulates
0.33 unconditionally and `blinkers` accumulates `10/(20*3)` while no blinker
is active. -/
noncomputable def fcwCountersNext (s : FcwState) (i : FcwInput)
    (v_lead_max ttc : ℝ) : FcwCounters :=
  { v_ego := if 5 < i.v_ego then s.counters.v_ego + 1 else 0
    ttc := if ttc < 2.5 then s.counters.ttc + 1 else 0
    v_lead_max := if 2.5 < v_lead_max then s.counters.v_lead_max + 1 else 0
    v_ego_lead := if i.v_lead < i.v_ego then s.counters.v_ego_lead + 1 else 0
    lead_seen := s.counters.lead_seen + 0.33
    y_lead := if |i.y_lead| < 1 then s.counters.y_lead + 1 else 0
    vlat_lead := if |i.vlat_lead| < 0.4 then s.counters.vlat_lead + 1 else 0
    blinkers :=
      if i.blinkers = false then s.counters.blinkers + 10 / (20 * 3) else 0 }

/-- `fcw_allowed = all(c >= 10 for c in self.counters.values())`
(planner.py line 138). -/
def fcwAllowed (c : FcwCounters) : Prop :=
  10 ≤ c.v_ego ∧ 10 ≤ c.ttc ∧ 10 ≤ c.v_lead_max ∧ 10 ≤ c.v_ego_lead ∧
    10 ≤ c.lead_seen ∧ 10 ≤ c.y_lead ∧ 10 ≤ c.vlat_lead ∧ 10 ≤ c.blinkers

noncomputable instance (c : FcwCounters) : Decidable (fcwAllowed c) := by
  unfold fcwAllowed
  infer_instance

/-- One call of `FCWChecker.update` (planner.py lines 119–144), returning the
new state and the returned Boolean.  `last_min_a` and `v_lead_max` are updated
unconditionally; the counters, the TTC and the firing test run only when
`fcw_lead > 0.99`; firing additionally requires every counter `≥ 10` and
`last_fcw_time + 5 < cur_time`, and latches `last_fcw_time := cur_time` and
`last_fcw_a`. -/
noncomputable def fcwStep (s : FcwState) (i : FcwInput) : FcwState × Bool :=
  let last_min_a := listMinR i.a_ego_sol
  let v_lead_max := max s.v_lead_max i.v_lead
  if 0.99 < i.fcw_lead then
    let c := fcwCountersNext s i v_lead_max
      (calc_ttc i.v_ego i.a_ego i.x_lead i.v_lead i.a_lead)
    let a_delta := listMinR (i.a_ego_sol.take 15) - min 0 i.a_ego
    let s1 : FcwState :=
      { s with last_min_a := last_min_a, v_lead_max := v_lead_max, counters := c }
    if (last_min_a < -3 ∨ a_delta < fcw_a_thr i.v_lead) ∧ fcwAllowed c ∧
        s.last_fcw_time + 5 < i.cur_time then
      ({ s1 with last_fcw_time := i.cur_time, last_fcw_a := last_min_a }, true)
    else (s1, false)
  else ({ s with last_min_a := last_min_a, v_lead_max := v_lead_max }, false)

/-- The `FCWChecker` state before the call at index `n` of a trace of
`update` calls starting from `s0`. -/
noncomputable def fcwStateAt (s0 : FcwState) (tr : List FcwInput) : Nat → FcwState
  | 0 => s0
  | n + 1 =>
    match tr.get? n with
    | some i => (fcwStep (fcwStateAt s0 tr n) i).1
    | none => fcwStateAt s0 tr n

/-- The Boolean returned by the call at index `n` of the trace (false past the
end). -/
noncomputable def fcwFiredAt (s0 : FcwState) (tr : List FcwInput) (n : Nat) :
    Bool :=
  match tr.get? n with
  | some i => (fcwStep (fcwStateAt s0 tr n) i).2
  | none => false

theorem fcwStep_time_mono (s : FcwState) (i : FcwInput) :
    s.last_fcw_time ≤ (fcwStep s i).1.last_fcw_time := by
  unfold fcwStep
  dsimp only
  split_ifs with h1 h2
  · exact le_of_lt (by linarith [h2.2.2])
  · exact le_refl _
  · exact le_refl _

theorem fcwStep_fired (s : FcwState) (i : FcwInput)
    (h : (fcwStep s i).2 = true) :
    s.last_fcw_time + 5 < i.cur_time ∧
      (fcwStep s i).1.last_fcw_time = i.cur_time := by
  unfold fcwStep at h ⊢
  dsimp only at h ⊢
  split_ifs at h ⊢ with h1 h2
  exact ⟨h2.2.2, rfl⟩

theorem fcwStateAt_succ_mono (s0 : FcwState) (tr : List FcwInput) (k : Nat) :
    (fcwStateAt s0 tr k).last_fcw_time ≤
      (fcwStateAt s0 tr (k + 1)).last_fcw_time := by
  rw [fcwStateAt]
  cases htr : tr.get? k with
  | none => exact le_refl _
  | some i => exact fcwStep_time_mono _ _

theorem fcwStateAt_time_mono (s0 : FcwState) (tr : List FcwInput) (m n : Nat)
    (hmn : m ≤ n) :
    (fcwStateAt s0 tr m).last_fcw_time ≤ (fcwStateAt s0 tr n).last_fcw_time := by
  induction hmn with
  | refl => exact le_refl _
  | step hk ih => exact le_trans ih (fcwStateAt_succ_mono s0 tr _)

/-- Claim C9: FCW firing is rate-limited to once per five seconds: along every
trace of `FCWChecker.update` calls with non-decreasing `cur_time`, if the call
at index `i` (time `t`) returns true, then every later call at index `j` whose
time is at most `t + 5` returns false (firing requires, besides
`fcw_lead > 0.99`, all counters `≥ 10` and the deceleration condition, that
more than five seconds have passed since the latched `last_fcw_time`). -/
theorem fcw_rate_limited (s0 : FcwState) (tr : List FcwInput) (i j : Nat)
    (ini inj : FcwInput)
    (hmono : List.Chain' (fun a b => a.cur_time ≤ b.cur_time) tr)
    (hij : i < j) (hti : tr.get? i = some ini) (htj : tr.get? j = some inj)
    (hfire : fcwFiredAt s0 tr i = true)
    (hwin : inj.cur_time ≤ ini.cur_time + 5) :
    fcwFiredAt s0 tr j = false := by
  have hieq : fcwFiredAt s0 tr i = (fcwStep (fcwStateAt s0 tr i) ini).2 := by
    unfold fcwFiredAt
    rw [hti]
  have hjeq : fcwFiredAt s0 tr j = (fcwStep (fcwStateAt s0 tr j) inj).2 := by
    unfold fcwFiredAt
    rw [htj]
  rw [hieq] at hfire
  rw [hjeq]
  by_contra hj
  simp only [Bool.not_eq_false] at hj
  have hjcond := (fcwStep_fired _ _ hj).1
  have hposti : (fcwStateAt s0 tr (i + 1)).last_fcw_time = ini.cur_time := by
    rw [fcwStateAt, hti]
    exact (fcwStep_fired _ _ hfire).2
  have hmono' : (fcwStateAt s0 tr (i + 1)).last_fcw_time ≤
      (fcwStateAt s0 tr j).last_fcw_time :=
    fcwStateAt_time_mono s0 tr (i + 1) j (Nat.succ_le_of_lt hij)
  rw [hposti] at hmono'
  linarith

/-- `calc_ttc` at the witness kinematics: ego at 10 m/s, stationary lead 5 m
ahead, no accelerations: `delta = 100`, `ttc = 10/20 = 0.5`. -/
theorem calcTtc_concrete : calc_ttc 10 0 5 0 0 = 0.5 := by
  unfold calc_ttc
  dsimp only
  have h100 : Real.sqrt ((10 - 0 : ℝ) ^ 2 + 2 * 5 * min (0 - 0) (0 / 2)) = 10 := by
    have h : ((10 - 0 : ℝ) ^ 2 + 2 * 5 * min (0 - 0) (0 / 2)) = 10 ^ 2 := by
      norm_num
    rw [h, Real.sqrt_sq]
    norm_num
  rw [h100]
  rw [if_neg (by norm_num)]
  rw [min_eq_left (by norm_num)]
  norm_num

/-- A checker state with every counter already armed (as after a long run of
arming calls) and no recent firing. -/
noncomputable def fcwS0 : FcwState :=
  { last_fcw_a := 0
    v_lead_max := 20
    lead_seen_t := 0
    last_fcw_time := 0
    last_min_a := 0
    counters :=
      { v_ego := 20
        ttc := 20
        v_lead_max := 20
        v_ego_lead := 20
        lead_seen := 20
        y_lead := 20
        vlat_lead := 20
        blinkers := 20 } }

/-- A firing input at time 6: hard predicted braking (`a_ego` trajectory at
−4), close stationary lead, `fcw_lead = 1`, no blinkers. -/
noncomputable def fcwIn0 : FcwInput :=
  { a_ego_sol := [-4]
    cur_time := 6
    v_ego := 10
    a_ego := 0
    x_lead := 5
    v_lead := 0
    a_lead := 0
    y_lead := 0
    vlat_lead := 0
    fcw_lead := 1
    blinkers := false }

/-- The same input one second later — inside the five-second window. -/
noncomputable def fcwIn1 : FcwInput := { fcwIn0 with cur_time := 7 }

/-- The two-call witness trace. -/
noncomputable def fcwTrace : List FcwInput := [fcwIn0, fcwIn1]

theorem fcwTrace_fires_at_zero : fcwFiredAt fcwS0 fcwTrace 0 = true := by
  have h0 : fcwFiredAt fcwS0 fcwTrace 0 = (fcwStep fcwS0 fcwIn0).2 := rfl
  rw [h0]
  unfold fcwStep
  dsimp only
  rw [if_pos (show (0.99 : ℝ) < fcwIn0.fcw_lead by norm_num [fcwIn0])]
  rw [if_pos]
  refine ⟨Or.inl ?_, ?_, ?_⟩
  · norm_num [fcwIn0, listMinR]
  · norm_num [fcwAllowed, fcwCountersNext, fcwS0, fcwIn0, calcTtc_concrete]
  · norm_num [fcwS0, fcwIn0]

/-- Witness for C9 at a concrete trace: the call at index 0 (time 6) fires,
the call at index 1 arrives at time 7 ≤ 6 + 5, and the theorem forces it to
return false. -/
theorem fcw_rate_limited_witness :
    List.Chain' (fun a b => a.cur_time ≤ b.cur_time) fcwTrace ∧
      0 < 1 ∧
      fcwTrace.get? 0 = some fcwIn0 ∧
      fcwTrace.get? 1 = some fcwIn1 ∧
      fcwFiredAt fcwS0 fcwTrace 0 = true ∧
      fcwIn1.cur_time ≤ fcwIn0.cur_time + 5 ∧
      fcwFiredAt fcwS0 fcwTrace 1 = false :=
  ⟨by simp [fcwTrace, List.chain'_cons, fcwIn1, fcwIn0]; norm_num,
    Nat.zero_lt_one, rfl, rfl, fcwTrace_fires_at_zero,
    by norm_num [fcwIn0, fcwIn1],
    fcw_rate_limited fcwS0 fcwTrace 0 1 fcwIn0 fcwIn1
      (by simp [fcwTrace, List.chain'_cons, fcwIn1, fcwIn0]; norm_num)
      Nat.zero_lt_one rfl rfl fcwTrace_fires_at_zero
      (by norm_num [fcwIn0, fcwIn1])⟩
